import Mathlib

/-!
Shallow embedding of the client logic of the online-organic-food-order
storefront (frontend/src/App.js), together with theorems settling the
specification's claims about the session store, the authorization gate,
and the cart manager.

Numbers: product prices are embedded as rationals (`ℚ`), quantities as
`Nat` and stock counters as `Int`.  JavaScript `undefined`/`null` is
embedded as `Option`, a rejected promise as `Except.error`, and the
falsy-default of `x || y` on optional strings as `jsOr`.
-/

/-- User identity record: {id, name, email, role, created_at}. -/
structure User where
  id : String
  name : String
  email : String
  role : String
  created_at : String
deriving Repr, DecidableEq

/-- Product record; only the fields the cart/catalog logic reads. -/
structure Product where
  id : String
  name : String
  price : ℚ
  stock_quantity : Int
deriving Repr, DecidableEq

/-- Cart item record: {id, product_id, quantity}. -/
structure CartItem where
  id : String
  product_id : String
  quantity : Nat
deriving Repr, DecidableEq

/-- Category reference record: {id, name}. -/
structure Category where
  id : String
  name : String
deriving Repr, DecidableEq

/-- Backend error as the client sees it: the optional
`error.response?.data?.detail` string. -/
structure ApiError where
  detail : Option String
deriving Repr, DecidableEq

/-- JavaScript `x || y` on an optional string: `y` when `x` is
`undefined`/`null` or the empty string (falsy), else the string in `x`. -/
def jsOr (x : Option String) (y : String) : String :=
  match x with
  | none => y
  | some s => if s = "" then y else s

/-- JavaScript truthiness of an optional string (`if (token) ...`):
true exactly for a present, non-empty string. -/
def jsTruthy (x : Option String) : Bool :=
  match x with
  | none => false
  | some s => s != ""

/-- The product map `products` of CartPage: a JS object keyed by product id,
embedded as an association list with first-match lookup. -/
def ProductMap : Type := List (String × Product)

/-- CartPage.getTotalPrice (App.js:642-647):
`cartItems.reduce((total, item) => { const product = products[item.product_id];
return total + (product ? product.price * item.quantity : 0); }, 0)`. -/
def getTotalPrice (cartItems : List CartItem) (products : ProductMap) : ℚ :=
  cartItems.foldl
    (fun total item =>
      total +
        (match List.lookup item.product_id products with
         | some product => product.price * (item.quantity : ℚ)
         | none => 0))
    0

/-- Contribution of a single cart item to the total, as the spec words it:
`price(product_id) × quantity` when the product resolves, else 0. -/
def itemContribution (products : ProductMap) (item : CartItem) : ℚ :=
  match List.lookup item.product_id products with
  | some product => product.price * (item.quantity : ℚ)
  | none => 0

/-- The fixed delivery surcharge shown in CartPage's Order Summary
(App.js:743-746 renders a constant 49). -/
def deliveryCharge : ℚ := 49

/-- The "Subtotal" line of the Order Summary (App.js:741):
`getTotalPrice().toFixed(2)`. -/
def displayedSubtotal (cartItems : List CartItem) (products : ProductMap) : ℚ :=
  getTotalPrice cartItems products

/-- The "Total" line of the Order Summary (App.js:749):
`(getTotalPrice() + 49).toFixed(2)`. -/
def displayedTotal (cartItems : List CartItem) (products : ProductMap) : ℚ :=
  getTotalPrice cartItems products + 49

/-- Payload of `DELETE /cart/{itemId}` (App.js:635): the item identifier is
the only datum transmitted. -/
structure CartDeleteRequest where
  itemId : String
deriving Repr, DecidableEq

/-- Payload of `POST /cart` (App.js:491): `{ product_id, quantity }`. -/
structure CartCreateRequest where
  product_id : String
  quantity : Nat
deriving Repr, DecidableEq

/-- CartPage.removeFromCart (App.js:633-640).  Input: the item id and the
outcome of the DELETE request; output: the request payload issued, whether
`fetchCart()` was triggered, and the alert shown (if any).  The code awaits
the delete inside `try`, calls `fetchCart()` only after it resolves, and on
rejection shows `'Error removing item: ' + (detail || 'Unknown error')`
without refetching. -/
def removeFromCart (itemId : String) (deleteResult : Except ApiError Unit) :
    CartDeleteRequest × Bool × Option String :=
  (⟨itemId⟩,
    match deleteResult with
    | Except.ok _ => (true, none)
    | Except.error e =>
        (false, some ("Error removing item: " ++ jsOr e.detail "Unknown error")))

/-- Local view state of ProductsPage: products, categories, selected
category filter (App.js:465-467). -/
structure ProductsPageState where
  products : List Product
  categories : List Category
  selectedCategory : String
deriving Repr, DecidableEq

/-- ProductsPage.addToCart (App.js:489-496).  Input: the page's local state,
the product id and the outcome of the POST; output: the (unchanged) local
state, the list of requests issued (always exactly one, quantity 1, never
retried), and the alert text shown. -/
def addToCart (state : ProductsPageState) (productId : String)
    (postResult : Except ApiError Unit) :
    ProductsPageState × List CartCreateRequest × String :=
  (state, [⟨productId, 1⟩],
    match postResult with
    | Except.ok _ => "Product added to cart!"
    | Except.error e =>
        "Error adding to cart: " ++ jsOr e.detail "Unknown error")

/-- Modelled from the spec: the backend's handling of
`DELETE /cart/{itemId}` ("removes one cart item", §6) is not part of this
repository (only the frontend is present), so the server-side removal is
modelled as deleting the cart item bearing that identifier; deleting an
identifier not present leaves the cart unchanged. -/
def removeItemServer (cart : List CartItem) (itemId : String) : List CartItem :=
  cart.filter (fun item => item.id != itemId)

/-- Session-store state of AuthProvider (App.js:20-53): in-memory `user` and
`token`, the durable `localStorage` token, and the process-wide default
`Authorization` header on axios. -/
structure AuthState where
  user : Option User
  token : Option String
  storedToken : Option String
  authHeader : Option String
deriving Repr, DecidableEq

/-- AuthProvider's initial state (App.js:21-22): no user, token read from
`localStorage.getItem('token')`, no default header installed yet. -/
def initAuthState (stored : Option String) : AuthState :=
  { user := none, token := stored, storedToken := stored, authHeader := none }

/-- AuthProvider.logout (App.js:31-36): clears the in-memory user and token,
removes the durable token, and deletes the default credential header. -/
def logout (_s : AuthState) : AuthState :=
  { user := none, token := none, storedToken := none, authHeader := none }

/-- AuthProvider's revalidation effect (App.js:38-46): when the token is
truthy, install the bearer header, request `GET /auth/me`; on success
install the returned identity, on any failure call `logout()`.  The second
component collects user-facing alerts (none on either branch). -/
def revalidateEffect (s : AuthState) (meResult : Except ApiError User) :
    AuthState × List String :=
  if jsTruthy s.token then
    let s₁ := { s with authHeader := s.token.map (fun t => "Bearer " ++ t) }
    match meResult with
    | Except.ok u => ({ s₁ with user := some u }, [])
    | Except.error _ => (logout s₁, [])
  else (s, [])

/-- AuthProvider's derived flag (App.js:49): `isAuthenticated: !!user`. -/
def isAuthenticated (s : AuthState) : Bool :=
  s.user.isSome

/-- Outcome of the authorization gate. -/
inductive GateResult where
  | render
  | redirectLogin
  | redirectProducts
deriving Repr, DecidableEq

/-- ProtectedRoute (App.js:1038-1050): `if (!isAuthenticated) navigate to
/login; if (adminOnly && user?.role !== 'admin') navigate to /products;
else render children`, where `isAuthenticated = !!user`. -/
def protectedRoute (user : Option User) (adminOnly : Bool) : GateResult :=
  if !user.isSome then GateResult.redirectLogin
  else if adminOnly && !(user.map User.role == some "admin") then
    GateResult.redirectProducts
  else GateResult.render

/-- The gate as applied to a session-store state. -/
def gateFromState (s : AuthState) (adminOnly : Bool) : GateResult :=
  protectedRoute s.user adminOnly

/-- ProductsPage's add-to-cart button disabled flag (App.js:593):
`disabled={product.stock_quantity === 0}`. -/
def addButtonDisabled (product : Product) : Bool :=
  product.stock_quantity == 0

/-- Sum of the quantity fields of a cart, as the spec words the badge
count. -/
def sumQuantities (items : List CartItem) : Nat :=
  (items.map CartItem.quantity).sum

/-- Navigation.fetchCartCount (App.js:69-79): with a user present, on a
successful `GET /cart` sets the count to
`response.data.reduce((sum, item) => sum + item.quantity, 0)`; on failure
(or with no user) the previous count is left unchanged. -/
def fetchCartCount (user : Option User) (prevCount : Nat)
    (cartResult : Except ApiError (List CartItem)) : Nat :=
  match user with
  | none => prevCount
  | some _ =>
    match cartResult with
    | Except.ok items => items.foldl (fun sum item => sum + item.quantity) 0
    | Except.error _ => prevCount

/-- A left fold that only accumulates `f` over the list equals the initial
value plus the sum of the mapped list. -/
theorem foldl_add_eq_sum {α M : Type} [AddMonoid M] (f : α → M) :
    ∀ (l : List α) (init : M),
      l.foldl (fun acc a => acc + f a) init = init + (l.map f).sum := by
  intro l
  induction l with
  | nil => intro init; simp
  | cons a l ih =>
      intro init
      simp only [List.foldl_cons, List.map_cons, List.sum_cons]
      rw [ih (init + f a), add_assoc]

/-- Filtering a cart by "id different from itemId" is the identity when no
item carries that id. -/
theorem removeItemServer_not_mem (cart : List CartItem) (itemId : String)
    (h : itemId ∉ cart.map CartItem.id) :
    removeItemServer cart itemId = cart := by
  unfold removeItemServer
  refine List.filter_eq_self.mpr ?_
  intro item hmem
  have : item.id ≠ itemId := by
    intro heq
    exact h (heq ▸ List.mem_map_of_mem CartItem.id hmem)
  simpa [bne_iff_ne] using this

/-- C1: for every cart state (any list of cart items and any loaded product
map), `getTotalPrice` equals the sum over all cart items of
`price(product_id) × quantity` for items whose product id resolves in the
product map, an unresolvable item contributing 0.  It is a total (Lean)
function of exactly these two inputs, hence pure and never raising. -/
theorem getTotalPrice_eq_resolvable_sum (cartItems : List CartItem)
    (products : ProductMap) :
    getTotalPrice cartItems products =
      (cartItems.map (itemContribution products)).sum := by
  unfold getTotalPrice itemContribution
  rw [foldl_add_eq_sum, zero_add]

/-- C6: `getTotalPrice` is invariant under permutation of the cart-item
list: for every product map and every reordering of the items, the
computed total is equal. -/
theorem getTotalPrice_perm_invariant (l₁ l₂ : List CartItem)
    (products : ProductMap) (h : List.Perm l₁ l₂) :
    getTotalPrice l₁ products = getTotalPrice l₂ products := by
  unfold getTotalPrice
  rw [foldl_add_eq_sum, foldl_add_eq_sum]
  exact congrArg _ (List.Perm.sum_eq (List.Perm.map _ h))

/-- Witness for C6 at a concrete two-element cart and its swap. -/
theorem getTotalPrice_perm_invariant_witness :
    getTotalPrice
        [⟨"c1", "p1", 2⟩, ⟨"c2", "p2", 1⟩]
        [("p1", ⟨"p1", "Apples", 10, 5⟩), ("p2", ⟨"p2", "Kale", 7, 3⟩)] =
      getTotalPrice
        [⟨"c2", "p2", 1⟩, ⟨"c1", "p1", 2⟩]
        [("p1", ⟨"p1", "Apples", 10, 5⟩), ("p2", ⟨"p2", "Kale", 7, 3⟩)] :=
  getTotalPrice_perm_invariant _ _ _ (List.Perm.swap _ _ _)

/-- C2: on initialization with a stored (truthy) token, if the identity
lookup `GET /auth/me` fails for any reason, the session store performs a
full logout — in-memory user cleared, in-memory token cleared, durable
token removed, default credential header removed — and produces no
user-facing alert. -/
theorem revalidate_failure_full_logout (stored : Option String) (e : ApiError)
    (h : jsTruthy stored = true) :
    revalidateEffect (initAuthState stored) (Except.error e) =
      ({ user := none, token := none, storedToken := none,
         authHeader := none }, []) := by
  unfold revalidateEffect initAuthState logout
  simp [h]

/-- Witness for C2 at a concrete stored token and error. -/
theorem revalidate_failure_full_logout_witness :
    jsTruthy (some "tok") = true ∧
      revalidateEffect (initAuthState (some "tok"))
          (Except.error ⟨some "Could not validate credentials"⟩) =
        ({ user := none, token := none, storedToken := none,
           authHeader := none }, []) :=
  ⟨by decide,
    revalidate_failure_full_logout (some "tok")
      ⟨some "Could not validate credentials"⟩ (by decide)⟩

/-- C3: the authorization gate redirects any unauthenticated identity to
login (on authenticated and admin routes alike), redirects an authenticated
identity whose role is not `admin` away from an admin route to the products
page, and renders an admin route for an authenticated identity whose role
is `admin`. -/
theorem protectedRoute_gate_cases :
    (∀ adminOnly, protectedRoute none adminOnly = GateResult.redirectLogin) ∧
    (∀ u : User, u.role ≠ "admin" →
      protectedRoute (some u) true = GateResult.redirectProducts) ∧
    (∀ u : User, u.role = "admin" →
      protectedRoute (some u) true = GateResult.render) := by
  refine ⟨?_, ?_, ?_⟩
  · intro adminOnly
    simp [protectedRoute]
  · intro u h
    simp [protectedRoute, h]
  · intro u h
    simp [protectedRoute, h]

/-- Witness for C3 at concrete customer and admin identities. -/
theorem protectedRoute_gate_cases_witness :
    protectedRoute none true = GateResult.redirectLogin ∧
      protectedRoute
          (some ⟨"u1", "Casey", "casey@mail.test", "customer", "2024-01-01"⟩)
          true = GateResult.redirectProducts ∧
      protectedRoute
          (some ⟨"u2", "Admin", "admin@organicfood.com", "admin",
                "2024-01-01"⟩)
          true = GateResult.render :=
  ⟨protectedRoute_gate_cases.1 true,
    protectedRoute_gate_cases.2.1
      ⟨"u1", "Casey", "casey@mail.test", "customer", "2024-01-01"⟩
      (by decide),
    protectedRoute_gate_cases.2.2
      ⟨"u2", "Admin", "admin@organicfood.com", "admin", "2024-01-01"⟩
      (by decide)⟩

/-- C9: in every session-store state `isAuthenticated` holds exactly when a
resolved user identity is present; on initialization a stored token alone
never makes it true; hence until revalidation completes, the gate redirects
every protected route (authenticated or admin) to login even when a stored
token exists. -/
theorem isAuthenticated_iff_user_present :
    (∀ s : AuthState, isAuthenticated s = s.user.isSome) ∧
    (∀ stored : Option String, isAuthenticated (initAuthState stored) = false) ∧
    (∀ (stored : Option String) (adminOnly : Bool),
      gateFromState (initAuthState stored) adminOnly =
        GateResult.redirectLogin) := by
  refine ⟨fun s => rfl, fun stored => rfl, ?_⟩
  intro stored adminOnly
  simp [gateFromState, initAuthState, protectedRoute]

/-- C7: the delivery surcharge is the fixed constant 49, added only to the
displayed order total: the displayed total equals `getTotalPrice` plus the
surcharge, the displayed subtotal is `getTotalPrice` itself, `getTotalPrice`
is the bare per-item sum with no surcharge term, and the only mutating
request the cart page transmits carries the item identifier alone (no
amount field exists to persist a total). -/
theorem delivery_surcharge_display_only (cartItems : List CartItem)
    (products : ProductMap) :
    displayedTotal cartItems products =
        getTotalPrice cartItems products + deliveryCharge ∧
      displayedSubtotal cartItems products = getTotalPrice cartItems products ∧
      getTotalPrice cartItems products =
        (cartItems.map (itemContribution products)).sum ∧
      (∀ (itemId : String) (r : Except ApiError Unit),
        (removeFromCart itemId r).1 = CartDeleteRequest.mk itemId) := by
  refine ⟨rfl, rfl, ?_, fun itemId r => rfl⟩
  unfold getTotalPrice itemContribution
  rw [foldl_add_eq_sum, zero_add]

/-- C10: with a user present, the navigation badge count computed by
`fetchCartCount` from a successful cart fetch equals the sum of the
quantity fields over all returned cart items (not the number of rows), and
on a fetch failure the previously displayed count is left unchanged. -/
theorem fetchCartCount_sum_quantities :
    (∀ (u : User) (prev : Nat) (items : List CartItem),
      fetchCartCount (some u) prev (Except.ok items) = sumQuantities items) ∧
    (∀ (u : User) (prev : Nat) (e : ApiError),
      fetchCartCount (some u) prev (Except.error e) = prev) := by
  constructor
  · intro u prev items
    have h := foldl_add_eq_sum CartItem.quantity items 0
    rw [zero_add] at h
    exact h
  · intro u prev e
    rfl

/-- C4 counterexample: the refetch is not unconditional — when the DELETE
request fails (here with detail "Cart item not found"), `fetchCart()` is
not triggered; the catch branch only shows an alert. -/
theorem removeFromCart_unconditional_refetch_cex :
    ¬ ((removeFromCart "item1"
          (Except.error ⟨some "Cart item not found"⟩)).2.1 = true) := by
  decide

/-- C4 (amended): `removeFromCart(itemId)` always issues the delete for that
item id; when the delete succeeds it triggers a refetch of the full cart
with no alert, and when the delete fails it shows an alert and does not
refetch.  Removing an identifier not present in the current cart leaves the
total computed over the remaining items unchanged. -/
theorem removeFromCart_refetch_on_success (itemId : String) :
    (removeFromCart itemId (Except.ok ())).1 = CartDeleteRequest.mk itemId ∧
    (removeFromCart itemId (Except.ok ())).2.1 = true ∧
    (removeFromCart itemId (Except.ok ())).2.2 = none ∧
    (∀ e : ApiError,
      (removeFromCart itemId (Except.error e)).1 = CartDeleteRequest.mk itemId ∧
      (removeFromCart itemId (Except.error e)).2.1 = false ∧
      (removeFromCart itemId (Except.error e)).2.2 =
        some ("Error removing item: " ++ jsOr e.detail "Unknown error")) ∧
    (∀ (cart : List CartItem) (m : ProductMap),
      itemId ∉ cart.map CartItem.id →
      getTotalPrice (removeItemServer cart itemId) m =
        getTotalPrice cart m) := by
  refine ⟨rfl, rfl, rfl, fun e => ⟨rfl, rfl, rfl⟩, ?_⟩
  intro cart m h
  rw [removeItemServer_not_mem cart itemId h]

/-- Witness for C4's amended claim at a one-item cart and an absent id. -/
theorem removeFromCart_refetch_on_success_witness :
    ("zz" ∉ ([⟨"c1", "p1", 2⟩] : List CartItem).map CartItem.id) ∧
      getTotalPrice (removeItemServer [⟨"c1", "p1", 2⟩] "zz")
          [("p1", ⟨"p1", "Apples", 10, 5⟩)] =
        getTotalPrice [⟨"c1", "p1", 2⟩] [("p1", ⟨"p1", "Apples", 10, 5⟩)] ∧
      (removeFromCart "zz" (Except.ok ())).2.1 = true :=
  ⟨by decide,
    (removeFromCart_refetch_on_success "zz").2.2.2.2
      [⟨"c1", "p1", 2⟩] [("p1", ⟨"p1", "Apples", 10, 5⟩)] (by decide),
    (removeFromCart_refetch_on_success "zz").2.1⟩

/-- C5: `addToCart(productId)` leaves the page's local view state unchanged,
issues exactly one create request with quantity exactly 1 (no automatic
retry), and on failure shows a blocking alert carrying the backend detail
text when that text is present (and non-empty), falling back to
"Unknown error" when no detail is provided. -/
theorem addToCart_request_and_error_surface (state : ProductsPageState)
    (productId : String) (res : Except ApiError Unit) :
    (addToCart state productId res).1 = state ∧
    (addToCart state productId res).2.1 = [CartCreateRequest.mk productId 1] ∧
    (∀ (e : ApiError) (d : String),
      res = Except.error e → e.detail = some d → d ≠ "" →
      (addToCart state productId res).2.2 = "Error adding to cart: " ++ d) ∧
    (∀ e : ApiError,
      res = Except.error e → (e.detail = none ∨ e.detail = some "") →
      (addToCart state productId res).2.2 =
        "Error adding to cart: Unknown error") := by
  refine ⟨rfl, rfl, ?_, ?_⟩
  · intro e d hres hdet hne
    subst hres
    simp [addToCart, jsOr, hdet, hne]
  · intro e hres hdet
    subst hres
    rcases hdet with h | h <;> simp [addToCart, jsOr, h]

/-- Witness for C5 at a concrete failing create with a detail text. -/
theorem addToCart_request_and_error_surface_witness :
    (addToCart ⟨[], [], ""⟩ "p1"
        (Except.error ⟨some "Insufficient stock"⟩)).1 = ⟨[], [], ""⟩ ∧
      (addToCart ⟨[], [], ""⟩ "p1"
        (Except.error ⟨some "Insufficient stock"⟩)).2.1 = [⟨"p1", 1⟩] ∧
      (addToCart ⟨[], [], ""⟩ "p1"
        (Except.error ⟨some "Insufficient stock"⟩)).2.2 =
        "Error adding to cart: Insufficient stock" :=
  have h := addToCart_request_and_error_surface ⟨[], [], ""⟩ "p1"
    (Except.error ⟨some "Insufficient stock"⟩)
  ⟨h.1, h.2.1,
    h.2.2.1 ⟨some "Insufficient stock"⟩ "Insufficient stock" rfl rfl
      (by decide)⟩

/-- C8 counterexample: the button test is `stock_quantity === 0`, not
`stock_quantity ≤ 0`: a product whose stock counter is -1 has
`stock_quantity ≤ 0` yet its add-to-cart control is not disabled. -/
theorem addButton_negative_stock_cex :
    (Product.mk "p9" "Phantom" 5 (-1)).stock_quantity ≤ 0 ∧
      addButtonDisabled (Product.mk "p9" "Phantom" 5 (-1)) = false := by
  decide

/-- C8 (amended): the add-to-cart control is disabled exactly when the
product's stock_quantity equals 0 (so it is enabled for every positive
stock_quantity, and also for a negative one); the check remains a
client-side hint, the authoritative stock check being server-side. -/
theorem addButtonDisabled_iff_zero_stock (p : Product) :
    addButtonDisabled p = true ↔ p.stock_quantity = 0 := by
  simp [addButtonDisabled]
